import Mathlib

/-
Verification of the forecast-classification logic of `umbrella_advisor.py`.

The development embeds the pure core of the program:
  * `analyze_weather` (source lines 106-150): classification of the hourly
    forecast window into a `Recommendation`;
  * the location-resolution step of `get_weather_forecast`
    (source lines 69-82): deciding between literal coordinates and a
    geocoding query.

Python floats are modelled as rationals (`ℚ`), machine time stamps as `Int`
epoch seconds.  The ambient local time zone used by
`datetime.fromtimestamp` is threaded explicitly as an offset `tz` (in
seconds) so that the otherwise-ambient state is visible in the model.
-/

namespace UmbrellaAdvisor

/-- One hourly forecast point, as consumed by `analyze_weather`
(source lines 123-138).  The source reads `forecast['dt']`,
`forecast['temp']`, `forecast['weather'][0]['description']`,
`forecast['weather'][0]['main']` and `forecast.get('pop', 0)`; the first
element of the point's `weather` array is embedded directly as the `main`
and `description` fields, and the optional probability-of-precipitation as
an `Option ℚ` (absent keys read as `none`). -/
structure ForecastPoint where
  dt : Int
  temp : ℚ
  main : String
  description : String
  pop : Option ℚ
deriving DecidableEq

/-- The fetched weather payload, restricted to the only field
`analyze_weather` reads: `weather_data['hourly']` (source line 118). -/
structure WeatherData where
  hourly : List ForecastPoint
deriving DecidableEq

/-- The result triple of `analyze_weather`
(`needs_umbrella, reason, forecast_summary`, source line 150). -/
structure Recommendation where
  needsUmbrella : Bool
  reason : String
  forecastSummary : String
deriving DecidableEq

/-- The categories that force an umbrella recommendation:
`['Rain', 'Drizzle', 'Thunderstorm', 'Snow']` (source line 135). -/
def trigMains : List String := ["Rain", "Drizzle", "Thunderstorm", "Snow"]

/-- Zero-padded two-digit rendering of a number below 100, as produced by
the `%I` and `%M` directives of `strftime`. -/
def pad2 (n : Nat) : String := if n < 10 then "0" ++ toString n else toString n

/-- Model of `datetime.fromtimestamp(forecast['dt']).strftime('%I:%M %p')`
(source line 124): convert epoch seconds to local time using the ambient
offset `tz` (seconds east of UTC) and render hour-of-day on a zero-padded
12-hour clock followed by minutes and the AM/PM marker. -/
def fmtTime (tz : Int) (dt : Int) : String :=
  let secOfDay := (Int.emod (dt + tz) 86400).toNat
  let hour := secOfDay / 3600
  let minute := (secOfDay / 60) % 60
  let hour12 := (hour + 11) % 12 + 1
  let ampm := if hour < 12 then "AM" else "PM"
  pad2 hour12 ++ ":" ++ pad2 minute ++ " " ++ ampm

/-- Round a rational to the nearest integer, ties to the even integer.
This is the rounding performed by Python's `format(x, '.0f')`. -/
def roundHalfEven (q : ℚ) : ℤ :=
  let f := ⌊q⌋
  if q - f < 1/2 then f
  else if 1/2 < q - f then f + 1
  else if f % 2 = 0 then f else f + 1

/-- Model of the Python f-string conversion `{x:.0f}` (source lines 132 and
144): round to the nearest integer (ties to even) and print it; a negative
value that rounds to zero prints as `-0`, as Python does. -/
def fmtF0 (q : ℚ) : String :=
  let n := roundHalfEven q
  if n = 0 ∧ q < 0 then "-0" else toString n

/-- Step function for `pyTitle`: the boolean records whether the previous
character was alphabetic. -/
def pyTitleGo : Bool → List Char → List Char
  | _, [] => []
  | prev, c :: cs =>
    if c.isAlpha then
      (if prev then c.toLower else c.toUpper) :: pyTitleGo true cs
    else c :: pyTitleGo false cs

/-- Model of Python's `str.title()` (source line 132) on ASCII text: the
first letter of every alphabetic run is upper-cased and the rest of the
run lower-cased. -/
def pyTitle (s : String) : String := String.mk (pyTitleGo false s.toList)

/-- The probability-of-precipitation percentage of a point:
`forecast.get('pop', 0) * 100` (source line 130).  An absent `pop` key is
read as 0. -/
def popPct (p : ForecastPoint) : ℚ := p.pop.getD 0 * 100

/-- The one-line rendering appended to the `conditions` list for every
point of the window (source line 132):
`f"  • {time}: {description.title()} (Temp: {temp:.0f}°F, {pop:.0f}% precip)"`. -/
def condLine (tz : Int) (p : ForecastPoint) : String :=
  "  • " ++ fmtTime tz p.dt ++ ": " ++ pyTitle p.description ++
    " (Temp: " ++ fmtF0 p.temp ++ "°F, " ++ fmtF0 (popPct p) ++ "% precip)"

/-- The per-point classification of the loop body (source lines 135-138):
a point whose main category is in `trigMains` contributes
`(time, description, pop)` to `rain_forecasts`; otherwise, a point with
`pop >= 30` contributes `(time, "possible precipitation", pop)`; otherwise
it contributes nothing. -/
def triggerEntry (tz : Int) (p : ForecastPoint) : Option (String × String × ℚ) :=
  if p.main ∈ trigMains then some (fmtTime tz p.dt, p.description, popPct p)
  else if (30 : ℚ) ≤ popPct p then
    some (fmtTime tz p.dt, "possible precipitation", popPct p)
  else none

/-- Rendering of one `rain_forecasts` entry inside the reason
(source line 144): `f"{time} ({desc}, {pop:.0f}% chance)"`. -/
def renderRain (e : String × String × ℚ) : String :=
  e.1 ++ " (" ++ e.2.1 ++ ", " ++ fmtF0 e.2.2 ++ "% chance)"

/-- The forecast window actually considered:
`weather_data['hourly'][:24]` (source line 118). -/
def windowOf (w : WeatherData) : List ForecastPoint := w.hourly.take 24

/-- The `forecast_summary` string: the per-point lines joined by newlines
(source line 140). -/
def summaryOf (tz : Int) (w : WeatherData) : String :=
  String.intercalate "\n" ((windowOf w).map (condLine tz))

/-- The `rain_forecasts` list accumulated by the loop (source lines
120-138): the triggering entries of the window, in window order. -/
def rainForecastsOf (tz : Int) (w : WeatherData) : List (String × String × ℚ) :=
  (windowOf w).filterMap (triggerEntry tz)

/-- The reason built when `rain_forecasts` is non-empty (source lines
144-145): the fixed header followed by the rendered entries, one per line,
each indented by two spaces. -/
def rainReason (tz : Int) (w : WeatherData) : String :=
  "Precipitation expected:\n  " ++
    String.intercalate "\n  " ((rainForecastsOf tz w).map renderRain)

/-- The fixed reason used when no point triggers (source line 148). -/
def clearSkiesReason : String :=
  "Clear skies ahead - no precipitation expected in the next 24 hours."

/-- Embedding of `analyze_weather` (source lines 106-150): summarise the
first 24 hourly points, collect the triggering points, and recommend an
umbrella exactly when some point triggers. -/
def analyze_weather (tz : Int) (w : WeatherData) : Recommendation :=
  if (rainForecastsOf tz w).isEmpty then
    { needsUmbrella := false
      reason := clearSkiesReason
      forecastSummary := summaryOf tz w }
  else
    { needsUmbrella := true
      reason := rainReason tz w
      forecastSummary := summaryOf tz w }

/-- Value of a list of decimal digit characters (48 is the code of the
digit zero). -/
def digitsToNat (cs : List Char) : Nat :=
  cs.foldl (fun a c => a * 10 + (c.toNat - 48)) 0

/-- Model of Python's `str.strip()` (source lines 74-75): drop whitespace
from both ends. -/
def pyStrip (s : String) : String :=
  String.mk (((s.toList.dropWhile Char.isWhitespace).reverse.dropWhile
    Char.isWhitespace).reverse)

/-- Model of the Python builtin `float` applied to a candidate coordinate
(source lines 74-75): parse an optional sign, integer digits and an
optional fractional part into an exact rational; any other shape (and the
exotic float forms: exponents, infinities, nan, underscores, which the
program never receives for coordinates) is rejected, mirroring the
`ValueError` branch. -/
def pyFloat? (s : String) : Option ℚ :=
  let cs := s.toList
  let signNum : Int := if cs.head? = some '-' then -1 else 1
  let rest := if cs.head? = some '-' ∨ cs.head? = some '+' then cs.tail else cs
  let intDs := rest.takeWhile Char.isDigit
  let rest2 := rest.dropWhile Char.isDigit
  match rest2 with
  | [] =>
    if intDs.isEmpty then none
    else some (mkRat (signNum * digitsToNat intDs) 1)
  | c :: r3 =>
    if c = '.' then
      let fracDs := r3.takeWhile Char.isDigit
      let r4 := r3.dropWhile Char.isDigit
      if r4.isEmpty && !(intDs.isEmpty && fracDs.isEmpty) then
        some (mkRat (signNum * (digitsToNat intDs * 10 ^ fracDs.length + digitsToNat fracDs))
          (10 ^ fracDs.length))
      else none
    else none

/-- Smallest exponent `k` (searched up to 40) with `d ∣ 10 ^ k`; every
rational produced by `pyFloat?` has such a denominator. -/
def decExp (d : Nat) : Option Nat :=
  (List.range 40).find? (fun k => 10 ^ k % d == 0)

/-- Left-pad a digit string with zeros to length `k`. -/
def padZeros (s : String) (k : Nat) : String :=
  String.mk (List.replicate (k - s.length) '0') ++ s

/-- Model of the Python f-string conversion `{x}` for a float of exact
decimal value (source line 76): the shortest decimal rendering, with at
least one fractional digit (`42.0`, `42.36`, `-71.06`). -/
def pyRepr (q : ℚ) : String :=
  match decExp q.den with
  | some k =>
    let scaled := q.num.natAbs * 10 ^ k / q.den
    let ip := scaled / 10 ^ k
    let fp := scaled % 10 ^ k
    (if q.num < 0 then "-" else "") ++ toString ip ++ "." ++
      (if k = 0 then "0" else padZeros (toString fp) k)
  | none => toString q

/-- Outcome of the location-resolution step of `get_weather_forecast`:
either literal coordinates with a synthesized display name (no geocoding
call), or a deferred geocoding query for the whole string. -/
inductive LocationResolution where
  | coords (lat lon : ℚ) (locationName : String)
  | geocode (query : String)
deriving DecidableEq

/-- Embedding of the location-resolution step of `get_weather_forecast`
(source lines 69-82): if the string contains a comma and its first two
comma-separated parts, stripped, both parse as floats, the pair is used as
latitude/longitude with the display name
`f"Coordinates: {lat}, {lon}"`; otherwise the whole string is geocoded. -/
def resolveLocation (location : String) : LocationResolution :=
  if location.toList.contains ',' then
    match pyFloat? (pyStrip (((location.toList.splitOn ',').map String.mk).getD 0 "")),
        pyFloat? (pyStrip (((location.toList.splitOn ',').map String.mk).getD 1 "")) with
    | some lat, some lon =>
        LocationResolution.coords lat lon
          ("Coordinates: " ++ pyRepr lat ++ ", " ++ pyRepr lon)
    | _, _ => LocationResolution.geocode location
  else LocationResolution.geocode location

/-- Sample point: clear noon, 5% precipitation chance. -/
def pClear : ForecastPoint := ⟨43200, 70, "Clear", "clear sky", some (1/20)⟩

/-- Sample point: cloudy morning, 35% precipitation chance. -/
def pClouds : ForecastPoint := ⟨32400, 60, "Clouds", "scattered clouds", some (7/20)⟩

/-- Sample point: rainy evening, 80% precipitation chance. -/
def pRain : ForecastPoint := ⟨64800, 55, "Rain", "light rain", some (4/5)⟩

/-- Sample point: snow with the `pop` key absent. -/
def pSnowNone : ForecastPoint := ⟨0, 30, "Snow", "light snow", none⟩

/-- Sample point: clear sky with the `pop` key absent. -/
def pClearNone : ForecastPoint := ⟨3600, 65, "Clear", "clear sky", none⟩

/-- Sample payload holding only `pClouds`. -/
def wClouds : WeatherData := ⟨[pClouds]⟩

/-- Sample payload holding only `pRain`. -/
def wRain : WeatherData := ⟨[pRain]⟩

/-- Sample payload holding only `pClear`. -/
def wClear : WeatherData := ⟨[pClear]⟩

/-- Sample payload holding only `pSnowNone`. -/
def wSnow : WeatherData := ⟨[pSnowNone]⟩

/-- Sample payload of 25 points whose 25th point is rainy. -/
def wLong1 : WeatherData := ⟨List.replicate 24 pClear ++ [pRain]⟩

/-- Sample payload agreeing with `wLong1` on the first 24 points but not
on the 25th. -/
def wLong2 : WeatherData := ⟨List.replicate 24 pClear ++ [pClouds]⟩

/-- A triggering entry of a point of the window is an entry of
`rain_forecasts`. -/
theorem mem_rainForecastsOf {tz : Int} {w : WeatherData} {p : ForecastPoint}
    {e : String × String × ℚ} (hp : p ∈ windowOf w)
    (he : triggerEntry tz p = some e) : e ∈ rainForecastsOf tz w :=
  List.mem_filterMap.mpr ⟨p, hp, he⟩

/-- When `rain_forecasts` is non-empty, `analyze_weather` takes the
umbrella branch of source lines 142-145. -/
theorem analyze_weather_pos {tz : Int} {w : WeatherData}
    (h : rainForecastsOf tz w ≠ []) :
    analyze_weather tz w =
      { needsUmbrella := true, reason := rainReason tz w
        forecastSummary := summaryOf tz w } := by
  unfold analyze_weather
  cases hr : rainForecastsOf tz w with
  | nil => exact absurd hr h
  | cons a l => rfl

/-- When `rain_forecasts` is empty, `analyze_weather` takes the clear-sky
branch of source lines 146-148. -/
theorem analyze_weather_nil {tz : Int} {w : WeatherData}
    (h : rainForecastsOf tz w = []) :
    analyze_weather tz w =
      { needsUmbrella := false, reason := clearSkiesReason
        forecastSummary := summaryOf tz w } := by
  unfold analyze_weather
  rw [h]
  rfl

/-- The window of a one-point payload is that point alone. -/
theorem windowOf_singleton (p : ForecastPoint) : windowOf ⟨[p]⟩ = [p] := rfl

/-- C1 (amended): for an empty forecast window `analyze_weather` does not
fail; it returns a Recommendation with `needsUmbrella = false`, the fixed
clear-skies reason and an empty summary, for every time-zone offset. -/
theorem empty_window_clear_recommendation (tz : Int) :
    analyze_weather tz ⟨[]⟩ =
      { needsUmbrella := false, reason := clearSkiesReason
        forecastSummary := "" } := rfl

/-- C1 counterexample: on the empty hourly list `analyze_weather` returns
`needsUmbrella = false` together with the clear-skies reason — exactly the
outcome the claim says cannot be returned — instead of failing with a
malformed-data error. -/
theorem empty_window_counterexample :
    (analyze_weather 0 ⟨[]⟩).needsUmbrella = false ∧
    (analyze_weather 0 ⟨[]⟩).reason =
      "Clear skies ahead - no precipitation expected in the next 24 hours." :=
  ⟨rfl, rfl⟩

/-- C1 witness: the amended statement evaluated at a concrete non-zero
time-zone offset. -/
theorem empty_window_clear_recommendation_witness :
    analyze_weather 3600 ⟨[]⟩ =
      { needsUmbrella := false, reason := clearSkiesReason
        forecastSummary := "" } :=
  empty_window_clear_recommendation 3600

/-- C2: a point of the window whose category is outside the triggering set
but whose probability percentage is at least 30 makes
`analyze_weather` recommend an umbrella, and its entry in
`rain_forecasts` displays the literal description
"possible precipitation"; a point whose category is in the triggering set
instead displays its own description, regardless of its probability (the
category rule has priority). -/
theorem prob_rule_possible_precipitation (tz : Int) (w : WeatherData)
    (p q : ForecastPoint) (hp : p ∈ windowOf w) (hmain : p.main ∉ trigMains)
    (hpop : (30 : ℚ) ≤ popPct p) (hq : q.main ∈ trigMains) :
    (analyze_weather tz w).needsUmbrella = true ∧
    triggerEntry tz p = some (fmtTime tz p.dt, "possible precipitation", popPct p) ∧
    (fmtTime tz p.dt, "possible precipitation", popPct p) ∈ rainForecastsOf tz w ∧
    triggerEntry tz q = some (fmtTime tz q.dt, q.description, popPct q) := by
  have he : triggerEntry tz p =
      some (fmtTime tz p.dt, "possible precipitation", popPct p) := by
    unfold triggerEntry
    rw [if_neg hmain, if_pos hpop]
  have hmem := mem_rainForecastsOf hp he
  refine ⟨?_, he, hmem, ?_⟩
  · rw [analyze_weather_pos (List.ne_nil_of_mem hmem)]
  · unfold triggerEntry
    rw [if_pos hq]

/-- C2 witness: the cloudy 35%-probability point triggers with the
"possible precipitation" description and the rainy point keeps its own
description. -/
theorem prob_rule_possible_precipitation_witness :
    (analyze_weather 0 wClouds).needsUmbrella = true ∧
    triggerEntry 0 pClouds =
      some (fmtTime 0 pClouds.dt, "possible precipitation", popPct pClouds) ∧
    (fmtTime 0 pClouds.dt, "possible precipitation", popPct pClouds) ∈
      rainForecastsOf 0 wClouds ∧
    triggerEntry 0 pRain = some (fmtTime 0 pRain.dt, pRain.description, popPct pRain) :=
  prob_rule_possible_precipitation 0 wClouds pClouds pRain
    (List.mem_cons_self pClouds []) (by decide)
    (by norm_num [popPct, pClouds]) (by decide)

/-- C3: a point of the window whose category lies in
{Rain, Drizzle, Thunderstorm, Snow} makes `analyze_weather` recommend an
umbrella; no assumption on its probability-of-precipitation is needed. -/
theorem category_rule_forces_umbrella (tz : Int) (w : WeatherData)
    (p : ForecastPoint) (hp : p ∈ windowOf w) (hmain : p.main ∈ trigMains) :
    (analyze_weather tz w).needsUmbrella = true := by
  have he : triggerEntry tz p =
      some (fmtTime tz p.dt, p.description, popPct p) := by
    unfold triggerEntry
    rw [if_pos hmain]
  rw [analyze_weather_pos (List.ne_nil_of_mem (mem_rainForecastsOf hp he))]

/-- C3 witness: a snow point whose `pop` key is absent still forces the
umbrella recommendation. -/
theorem category_rule_forces_umbrella_witness :
    (analyze_weather 0 wSnow).needsUmbrella = true :=
  category_rule_forces_umbrella 0 wSnow pSnowNone
    (List.mem_cons_self pSnowNone []) (by decide)

/-- C4: when every point of a non-empty window has a category outside the
triggering set and a probability percentage below 30, `analyze_weather`
returns `needsUmbrella = false` with the fixed clear-skies reason. -/
theorem no_trigger_clear_skies (tz : Int) (w : WeatherData)
    (hne : w.hourly ≠ [])
    (hall : ∀ p ∈ windowOf w, p.main ∉ trigMains ∧ popPct p < 30) :
    (analyze_weather tz w).needsUmbrella = false ∧
    (analyze_weather tz w).reason =
      "Clear skies ahead - no precipitation expected in the next 24 hours." := by
  have hnil : rainForecastsOf tz w = [] := by
    unfold rainForecastsOf
    refine List.filterMap_eq_nil_iff.mpr (fun p hp => ?_)
    obtain ⟨h1, h2⟩ := hall p hp
    unfold triggerEntry
    rw [if_neg h1, if_neg (not_le.mpr h2)]
  rw [analyze_weather_nil hnil]
  exact ⟨rfl, rfl⟩

/-- C4 witness: a single clear point with a 5% probability yields the
clear-skies recommendation. -/
theorem no_trigger_clear_skies_witness :
    (analyze_weather 0 wClear).needsUmbrella = false ∧
    (analyze_weather 0 wClear).reason =
      "Clear skies ahead - no precipitation expected in the next 24 hours." :=
  no_trigger_clear_skies 0 wClear (by decide)
    (by
      intro p hp
      have hp' : p ∈ [pClear] := hp
      obtain rfl := List.mem_singleton.mp hp'
      exact ⟨by decide, by norm_num [popPct, pClear]⟩)

/-- C5: whenever some point triggers, the reason starts with the fixed
header "Precipitation expected:" and then lists every triggering point of
the window, in window order, one per line, rendered by `renderRain` as
"time (description, probability% chance)". -/
theorem reason_lists_triggering_points (tz : Int) (w : WeatherData)
    (h : rainForecastsOf tz w ≠ []) :
    (analyze_weather tz w).needsUmbrella = true ∧
    (analyze_weather tz w).reason =
      "Precipitation expected:" ++ "\n  " ++
        String.intercalate "\n  "
          (((windowOf w).filterMap (triggerEntry tz)).map renderRain) := by
  rw [analyze_weather_pos h]
  refine ⟨rfl, ?_⟩
  show rainReason tz w = _
  unfold rainReason rainForecastsOf
  rfl

/-- C5 witness: the reason for the rainy sample payload. -/
theorem reason_lists_triggering_points_witness :
    (analyze_weather 0 wRain).needsUmbrella = true ∧
    (analyze_weather 0 wRain).reason =
      "Precipitation expected:" ++ "\n  " ++
        String.intercalate "\n  "
          (((windowOf wRain).filterMap (triggerEntry 0)).map renderRain) :=
  reason_lists_triggering_points 0 wRain (by decide)

/-- C6: a point whose `pop` key is absent is treated as probability 0: it
never triggers through the probability rule, while a category-matching
point without `pop` still triggers through the category rule, its
displayed probability being 0. -/
theorem missing_pop_treated_as_zero (tz : Int) (p q : ForecastPoint)
    (hp : p.pop = none) (hq : q.pop = none)
    (hpm : p.main ∈ trigMains) (hqm : q.main ∉ trigMains) :
    popPct p = 0 ∧ popPct q = 0 ∧
    triggerEntry tz p = some (fmtTime tz p.dt, p.description, 0) ∧
    triggerEntry tz q = none := by
  have h0p : popPct p = 0 := by
    unfold popPct
    rw [hp]
    norm_num
  have h0q : popPct q = 0 := by
    unfold popPct
    rw [hq]
    norm_num
  refine ⟨h0p, h0q, ?_, ?_⟩
  · unfold triggerEntry
    rw [if_pos hpm, h0p]
  · unfold triggerEntry
    rw [if_neg hqm, h0q, if_neg (by norm_num)]

/-- C6 witness: the pop-less snow point triggers with displayed
probability 0 and the pop-less clear point does not trigger at all. -/
theorem missing_pop_treated_as_zero_witness :
    popPct pSnowNone = 0 ∧ popPct pClearNone = 0 ∧
    triggerEntry 0 pSnowNone =
      some (fmtTime 0 pSnowNone.dt, pSnowNone.description, 0) ∧
    triggerEntry 0 pClearNone = none :=
  missing_pop_treated_as_zero 0 pSnowNone pClearNone rfl rfl
    (by decide) (by decide)

/-- C7: for every non-empty window the forecast summary is exactly the
per-point lines, in window order, joined by newlines; each line shows the
point's local 12-hour time with AM/PM, its title-cased description, its
temperature rounded to the nearest integer in °F and its precipitation
probability rounded to the nearest integer percent. -/
theorem summary_one_line_per_point (tz : Int) (w : WeatherData)
    (hne : w.hourly ≠ []) :
    (analyze_weather tz w).forecastSummary =
      String.intercalate "\n" ((windowOf w).map (fun p =>
        "  • " ++ fmtTime tz p.dt ++ ": " ++ pyTitle p.description ++
          " (Temp: " ++ fmtF0 p.temp ++ "°F, " ++ fmtF0 (popPct p) ++
          "% precip)")) := by
  unfold analyze_weather
  split <;> rfl

/-- C7 witness: the summary of the one-point clear payload. -/
theorem summary_one_line_per_point_witness :
    (analyze_weather 0 wClear).forecastSummary =
      String.intercalate "\n" ((windowOf wClear).map (fun p =>
        "  • " ++ fmtTime 0 p.dt ++ ": " ++ pyTitle p.description ++
          " (Temp: " ++ fmtF0 p.temp ++ "°F, " ++ fmtF0 (popPct p) ++
          "% precip)")) :=
  summary_one_line_per_point 0 wClear (by decide)

/-- C8: the recommendation depends only on the first 24 hourly points: two
payloads whose hourly lists agree on their first 24 elements classify
identically, so points from index 24 on are neither summarised nor able to
trigger the umbrella. -/
theorem result_depends_only_on_first_24 (tz : Int) (w₁ w₂ : WeatherData)
    (h : w₁.hourly.take 24 = w₂.hourly.take 24) :
    analyze_weather tz w₁ = analyze_weather tz w₂ := by
  unfold analyze_weather rainReason summaryOf rainForecastsOf windowOf
  rw [h]

/-- C8 witness: two 25-point payloads differing only in their 25th point
(rain versus clouds) classify identically. -/
theorem result_depends_only_on_first_24_witness :
    analyze_weather 0 wLong1 = analyze_weather 0 wLong2 :=
  result_depends_only_on_first_24 0 wLong1 wLong2 rfl

/-- C9: a location string containing a comma whose first two
comma-separated parts both parse as float literals resolves to literal
coordinates — no geocoding query — with the display name
"Coordinates: lat, lon". -/
theorem coords_skip_geocoding (location : String) (lat lon : ℚ)
    (hc : location.toList.contains ',' = true)
    (hlat : pyFloat?
      (pyStrip (((location.toList.splitOn ',').map String.mk).getD 0 "")) = some lat)
    (hlon : pyFloat?
      (pyStrip (((location.toList.splitOn ',').map String.mk).getD 1 "")) = some lon) :
    resolveLocation location =
      LocationResolution.coords lat lon
        ("Coordinates: " ++ pyRepr lat ++ ", " ++ pyRepr lon) := by
  unfold resolveLocation
  rw [hc, hlat, hlon]
  rfl

/-- C9 witness: the string "42.36,-71.06" resolves without geocoding and
its display name is exactly "Coordinates: 42.36, -71.06". -/
theorem coords_skip_geocoding_witness :
    resolveLocation "42.36,-71.06" =
      LocationResolution.coords (mkRat 4236 100) (mkRat (-7106) 100)
        "Coordinates: 42.36, -71.06" :=
  (coords_skip_geocoding "42.36,-71.06" (mkRat 4236 100) (mkRat (-7106) 100)
    (by decide) (by decide) (by decide)).trans (by decide)

/-- C10: `analyze_weather` is deterministic — classifying equal windows
(with the same ambient time zone) yields identical Recommendations. -/
theorem analyze_weather_deterministic (tz : Int) (w₁ w₂ : WeatherData)
    (h : w₁ = w₂) : analyze_weather tz w₁ = analyze_weather tz w₂ := by
  rw [h]

/-- C10 witness: the determinism statement applied to the rainy sample
payload. -/
theorem analyze_weather_deterministic_witness :
    analyze_weather 0 wRain = analyze_weather 0 wRain :=
  analyze_weather_deterministic 0 wRain wRain rfl

end UmbrellaAdvisor
